import Mathlib

/-!
Verification development for the firebolt-python-sdk query-execution core.

The repository snapshot ships only documentation (docsrc/, sdk_documenation/,
READMEs, CI config); the Python implementation itself is absent.  Every
definition below is therefore a shallow embedding reconstructed from the
natural-language specification and the shipped documentation, as indicated by
the `Modelled from the spec:` doc comments.
-/

namespace FireboltSDK

/-- Modelled from the spec: the error taxonomy of section 7 (the concrete
Python exception classes are missing from the snapshot). -/
inductive SdkError where
  | interfaceError (msg : String)
  | programmingError (msg : String)
  | operationalError (stmtIndex : Nat) (msg : String)
  | authenticationError
  | queryTimeoutError
  | networkError
deriving DecidableEq, Repr

/-! ## StatementPreprocessor: statement splitting -/

/-- Scanner mode for the string/comment-aware statement splitter.  `sawDash`
and `sawSlash` are the one-character lookahead states for the `--` and `/*`
comment openers; `blockSawStar` is the lookahead for the `*/` closer. -/
inductive ScanMode where
  | normal
  | sawDash
  | sawSlash
  | singleQuote
  | doubleQuote
  | lineComment
  | blockComment
  | blockSawStar
deriving DecidableEq, Repr

/-- Modelled from the spec: "scan the text, treat `;` as a statement separator
unless inside a quoted string or comment" (the Python splitting helper is
missing from the snapshot).  `acc` holds the current statement's characters in
reverse. -/
def splitAux (mode : ScanMode) (acc : List Char) : List Char → List String
  | [] => [String.mk acc.reverse]
  | c :: cs =>
    match mode with
    | .normal =>
      if c = ';' then String.mk acc.reverse :: splitAux .normal [] cs
      else if c = '\'' then splitAux .singleQuote (c :: acc) cs
      else if c = '"' then splitAux .doubleQuote (c :: acc) cs
      else if c = '-' then splitAux .sawDash (c :: acc) cs
      else if c = '/' then splitAux .sawSlash (c :: acc) cs
      else splitAux .normal (c :: acc) cs
    | .sawDash =>
      if c = '-' then splitAux .lineComment (c :: acc) cs
      else if c = ';' then String.mk acc.reverse :: splitAux .normal [] cs
      else if c = '\'' then splitAux .singleQuote (c :: acc) cs
      else if c = '"' then splitAux .doubleQuote (c :: acc) cs
      else if c = '/' then splitAux .sawSlash (c :: acc) cs
      else splitAux .normal (c :: acc) cs
    | .sawSlash =>
      if c = '*' then splitAux .blockComment (c :: acc) cs
      else if c = ';' then String.mk acc.reverse :: splitAux .normal [] cs
      else if c = '\'' then splitAux .singleQuote (c :: acc) cs
      else if c = '"' then splitAux .doubleQuote (c :: acc) cs
      else if c = '-' then splitAux .sawDash (c :: acc) cs
      else if c = '/' then splitAux .sawSlash (c :: acc) cs
      else splitAux .normal (c :: acc) cs
    | .singleQuote =>
      if c = '\'' then splitAux .normal (c :: acc) cs
      else splitAux .singleQuote (c :: acc) cs
    | .doubleQuote =>
      if c = '"' then splitAux .normal (c :: acc) cs
      else splitAux .doubleQuote (c :: acc) cs
    | .lineComment =>
      if c = '\n' then splitAux .normal (c :: acc) cs
      else splitAux .lineComment (c :: acc) cs
    | .blockComment =>
      if c = '*' then splitAux .blockSawStar (c :: acc) cs
      else splitAux .blockComment (c :: acc) cs
    | .blockSawStar =>
      if c = '/' then splitAux .normal (c :: acc) cs
      else if c = '*' then splitAux .blockSawStar (c :: acc) cs
      else splitAux .blockComment (c :: acc) cs

/-- A statement is blank when it consists of whitespace only. -/
def isBlankStatement (s : String) : Bool :=
  s.data.all Char.isWhitespace

/-- Modelled from the spec: "empty trailing statements are dropped". -/
def dropTrailingBlank (stmts : List String) : List String :=
  (stmts.reverse.dropWhile isBlankStatement).reverse

/-- Modelled from the spec: the StatementPreprocessor's splitter — split a raw
SQL string into ordered statements, `;`-separated outside quotes and comments,
with empty trailing statements dropped. -/
def splitStatements (sql : String) : List String :=
  dropTrailingBlank (splitAux .normal [] sql.data)

/-! ## StatementPreprocessor: qmark parameter serialization -/

/-- Modelled from the spec: a bound parameter value ("strings single-quoted
with internal quotes escaped; NULL passed as SQL `NULL`; numeric types passed
unquoted"); the Python value-formatting helper is missing from the snapshot. -/
inductive ParamValue where
  | null
  | int (n : Int)
  | text (s : String)
deriving DecidableEq, Repr

/-- Escape one character of a string parameter: an embedded single quote is
doubled, every other character is kept. -/
def escapeChar (c : Char) : List Char :=
  if c = '\'' then ['\'', '\'']
  else [c]

/-- Modelled from the spec: qmark client-side serialization of a string value
to a single-quoted SQL literal with internal quotes escaped. -/
def serializeString (s : String) : String :=
  String.mk ('\'' :: s.data.flatMap escapeChar ++ ['\''])

/-- Modelled from the spec: qmark client-side serialization of one parameter
value to a SQL literal per its semantic type. -/
def serializeParam : ParamValue → String
  | .null => "NULL"
  | .int n => toString n
  | .text s => serializeString s

/-- The backend's reading of a single-quoted literal body: a doubled quote
denotes one embedded quote, the literal ends at an unpaired closing quote,
and trailing characters after the closing quote are rejected. -/
def parseQuotedBody : List Char → Option (List Char)
  | [] => none
  | '\'' :: [] => some []
  | '\'' :: '\'' :: rest => (parseQuotedBody rest).map (fun l => '\'' :: l)
  | '\'' :: _ :: _ => none
  | c :: rest => (parseQuotedBody rest).map (fun l => c :: l)

/-- Parse a complete single-quoted SQL string literal back to the string value
it denotes. -/
def parseStringLiteral (lit : String) : Option String :=
  match lit.data with
  | '\'' :: rest => (parseQuotedBody rest).map String.mk
  | _ => none

/-! ## StatementPreprocessor: qmark placeholder substitution -/

/-- Modelled from the spec: qmark client-side binding — replace each `?`
placeholder outside a quoted string by the serialized literal of the next
parameter; "placeholder count must exactly equal parameter-tuple length, else
`ProgrammingError`".  `acc` holds the output characters in reverse. -/
def substAux (inQuote : Bool) (acc : List Char) :
    List ParamValue → List Char → Except SdkError (List Char)
  | [], [] => .ok acc.reverse
  | _ :: _, [] => .error (.programmingError "too many parameters provided")
  | params, c :: cs =>
    if inQuote then
      if c = '\'' then substAux false (c :: acc) params cs
      else substAux true (c :: acc) params cs
    else if c = '?' then
      match params with
      | [] => .error (.programmingError "not enough parameters provided")
      | p :: ps => substAux false ((serializeParam p).data.reverse ++ acc) ps cs
    else if c = '\'' then substAux true (c :: acc) params cs
    else substAux false (c :: acc) params cs

/-- Bind a parameter tuple into one statement's qmark placeholders. -/
def substituteParams (stmt : String) (params : List ParamValue) :
    Except SdkError String :=
  (substAux false [] params stmt.data).map String.mk

/-- Modelled from the spec: the StatementPreprocessor entry point — split the
raw SQL text into statements; "Multi-statement text is incompatible with
parameterization — fail with `ProgrammingError` if both multiple statements
and bound parameters are supplied"; otherwise bind the parameters
client-side. -/
def prepareStatements (sql : String) (params : List ParamValue) :
    Except SdkError (List String) :=
  if 2 ≤ (splitStatements sql).length ∧ params ≠ [] then
    .error (.programmingError "multi-statement queries cannot be parameterized")
  else if params = [] then .ok (splitStatements sql)
  else (splitStatements sql).mapM (fun s => substituteParams s params)

/-! ## Result sets, cursor state, and batch execution -/

/-- Column type descriptors delivered by the backend. -/
inductive FType where
  | int
  | float
  | text
  | date
  | datetime
  | boolean
deriving DecidableEq, Repr

/-- A row of the result envelope. -/
abbrev Row := List ParamValue

/-- The backend's result envelope for one statement: columnar metadata plus
row data. -/
structure ResultEnvelope where
  columns : List (String × FType)
  rows : List Row
deriving DecidableEq, Repr

/-- Modelled from the spec: the abstract query endpoint — one request per
statement, answering either a result envelope or a statement failure. -/
abbrev Backend := String → Except String ResultEnvelope

/-- PEP-249 Column description entry.  Modelled from the docs: "Only name and
type_code fields get populated, all others are always empty." -/
structure Column where
  name : String
  type_code : FType
  display_size : Option Nat := none
  internal_size : Option Nat := none
  precision : Option Nat := none
  scale : Option Nat := none
  null_ok : Option Bool := none
deriving DecidableEq, Repr

/-- Build one description entry from the backend's column metadata. -/
def mkColumn (nt : String × FType) : Column :=
  { name := nt.1, type_code := nt.2 }

/-- Statement classification used for the client-side rowcount rule. -/
inductive StmtKind where
  | select
  | insert
  | ddl
  | other
deriving DecidableEq, Repr

/-- First SQL keyword of a statement, uppercased, leading whitespace
skipped. -/
def firstKeyword (stmt : String) : String :=
  String.mk (((stmt.data.dropWhile Char.isWhitespace).takeWhile Char.isAlpha).map
    Char.toUpper)

/-- Modelled from the spec and docs: classify a statement by its leading
keyword (SELECT / INSERT / DDL = CREATE or DROP). -/
def classify (stmt : String) : StmtKind :=
  let kw := firstKeyword stmt
  if kw = "SELECT" then .select
  else if kw = "INSERT" then .insert
  else if kw = "CREATE" ∨ kw = "DROP" then .ddl
  else .other

/-- Modelled from the docs: "For a SELECT query, rowcount is the number of
rows selected.  For an INSERT query, it is always -1.  For DDL (CREATE/DROP),
it is always 1." -/
def rowcountFor (kind : StmtKind) (rows : List Row) : Int :=
  match kind with
  | .select => rows.length
  | .insert => -1
  | .ddl => 1
  | .other => -1

/-- A processed per-statement result set as stored on the cursor: rows,
PEP-249 description, and the client-computed rowcount. -/
structure ProcessedSet where
  rows : List Row
  description : List Column
  rowcount : Int
deriving DecidableEq, Repr

/-- Turn a backend envelope for one statement into the cursor's stored
result set. -/
def processResponse (stmt : String) (env : ResultEnvelope) : ProcessedSet :=
  { rows := env.rows
    description := env.columns.map mkColumn
    rowcount := rowcountFor (classify stmt) env.rows }

/-- Outcome of dispatching a batch: the result sets produced, the statements
actually sent to the backend, and the failure that stopped the batch, if
any. -/
structure BatchOutcome where
  resultSets : List ProcessedSet
  sent : List String
  err : Option SdkError
deriving Repr

/-- Modelled from the spec: the Cursor "dispatches one or more statement
payloads sequentially (not concurrently — later statements must not be sent
if an earlier one failed)".  `idx` is the position of the next statement in
the original batch, used to report which statement failed. -/
def runBatch (backend : Backend) (idx : Nat) : List String → BatchOutcome
  | [] => { resultSets := [], sent := [], err := none }
  | s :: rest =>
    match backend s with
    | .ok env =>
      { resultSets := processResponse s env :: (runBatch backend (idx + 1) rest).resultSets
        sent := s :: (runBatch backend (idx + 1) rest).sent
        err := (runBatch backend (idx + 1) rest).err }
    | .error msg =>
      { resultSets := [], sent := [s], err := some (.operationalError idx msg) }

/-- Cursor state after an execute call: the ordered result sets of the batch,
the index of the current one, the fetch position inside it, and the failure
that aborted the batch, if any. -/
structure CursorState where
  resultSets : List ProcessedSet
  currentIdx : Nat
  fetchPos : Nat
  batchError : Option SdkError
deriving Repr

/-- Modelled from the spec: Cursor.execute without parameters — split, then
dispatch sequentially, attaching the produced result sets; the cursor starts
positioned on the first result set. -/
def cursorAfterExecute (backend : Backend) (sql : String) : CursorState :=
  let o := runBatch backend 0 (splitStatements sql)
  { resultSets := o.resultSets
    currentIdx := 0
    fetchPos := 0
    batchError := o.err }

/-- The cursor's current result set, if the cursor is positioned on one. -/
def currentSet (c : CursorState) : Option ProcessedSet :=
  c.resultSets[c.currentIdx]?

/-- Modelled from the spec: fetchall pulls every remaining row of the current
result set. -/
def fetchall (c : CursorState) : List Row :=
  match currentSet c with
  | some ps => ps.rows.drop c.fetchPos
  | none => []

/-- PEP-249 rowcount of the current result set (−1 when there is none). -/
def cursorRowcount (c : CursorState) : Int :=
  match currentSet c with
  | some ps => ps.rowcount
  | none => -1

/-- PEP-249 description of the current result set. -/
def cursorDescription (c : CursorState) : List Column :=
  match currentSet c with
  | some ps => ps.description
  | none => []

/-- Modelled from the spec: nextset advances to the next result set of the
batch, returning the advanced cursor when one exists and the "no more"
sentinel (`none`) otherwise — but a batch failure recorded past the produced
result sets is re-raised instead of being reported as an empty end. -/
def nextset (c : CursorState) : Except SdkError (Option CursorState) :=
  if c.currentIdx + 1 < c.resultSets.length then
    .ok (some { c with currentIdx := c.currentIdx + 1, fetchPos := 0 })
  else
    match c.batchError with
    | some e => .error e
    | none => .ok none

/-- The cursor holding a batch outcome, positioned on result set `k`. -/
def batchCursorAt (o : BatchOutcome) (k : Nat) : CursorState :=
  { resultSets := o.resultSets
    currentIdx := k
    fetchPos := 0
    batchError := o.err }

/-! ## Timed batch execution (timeout_seconds) -/

/-- A backend whose answers also carry the wall-clock duration the statement
takes to execute, so the client-side timeout timer can be modelled. -/
abbrev TimedBackend := String → Nat × Except String ResultEnvelope

/-- Outcome of dispatching a batch under a client-side timeout: the result
sets of the statements that completed in time, the statements actually sent,
whether a best-effort cancellation request was issued, and the error that
stopped the batch, if any. -/
structure TimedOutcome where
  resultSets : List ProcessedSet
  sent : List String
  cancelSent : Bool
  err : Option SdkError
deriving Repr

/-- Modelled from the spec: "a per-call `timeout_seconds` starts a client-side
timer at call issuance; on expiry the client sends a cancellation request for
the in-flight statement and raises `QueryTimeoutError` to the caller"; results
of statements completed before the timeout are kept, and remaining statements
of the batch are not dispatched.  `budget` is the time remaining before the
timer fires. -/
def runBatchTimed (backend : TimedBackend) (idx : Nat) (budget : Nat) :
    List String → TimedOutcome
  | [] => { resultSets := [], sent := [], cancelSent := false, err := none }
  | s :: rest =>
    if budget < (backend s).1 then
      { resultSets := [], sent := [s], cancelSent := true
        err := some .queryTimeoutError }
    else
      match (backend s).2 with
      | .ok env =>
        { resultSets :=
            processResponse s env ::
              (runBatchTimed backend (idx + 1) (budget - (backend s).1) rest).resultSets
          sent := s :: (runBatchTimed backend (idx + 1) (budget - (backend s).1) rest).sent
          cancelSent :=
            (runBatchTimed backend (idx + 1) (budget - (backend s).1) rest).cancelSent
          err := (runBatchTimed backend (idx + 1) (budget - (backend s).1) rest).err }
      | .error msg =>
        { resultSets := [], sent := [s], cancelSent := false
          err := some (.operationalError idx msg) }

/-- Cursor state after an execute call with `timeout_seconds`: completed
result sets stay attached and fetchable, a timeout is recorded as the batch
error. -/
def cursorAfterExecuteTimed (backend : TimedBackend) (budget : Nat)
    (sql : String) : CursorState :=
  let o := runBatchTimed backend 0 budget (splitStatements sql)
  { resultSets := o.resultSets
    currentIdx := 0
    fetchPos := 0
    batchError := o.err }

/-- The cursor holding a timed batch outcome, positioned on result set `k`. -/
def timedCursorAt (o : TimedOutcome) (k : Nat) : CursorState :=
  { resultSets := o.resultSets
    currentIdx := k
    fetchPos := 0
    batchError := o.err }

/-! ## executemany and bulk insert -/

/-- One network request issued by executemany.  `tupleStatements` lists the
per-tuple bound INSERT statements the request carries: a non-bulk request
carries exactly one, a bulk request carries all of them merged into one
payload. -/
structure Request where
  tupleStatements : List String
deriving DecidableEq, Repr

/-- Does the text consist of a single INSERT statement?  Modelled from the
spec: bulk insert requires "the statement is verified to be a single INSERT
(any other statement type fails with `ProgrammingError`)". -/
def isSingleInsert (sql : String) : Bool :=
  match splitStatements sql with
  | [s] => classify s = .insert
  | _ => false

/-- Bind every parameter tuple of an executemany call into its own copy of
the statement, stopping at the first binding failure. -/
def bindAll (sql : String) : List (List ParamValue) → Except SdkError (List String)
  | [] => .ok []
  | params :: rest =>
    match substituteParams sql params, bindAll sql rest with
    | .ok b, .ok bs => .ok (b :: bs)
    | .error e, _ => .error e
    | .ok _, .error e => .error e

/-- Modelled from the spec: `executemany(sql, seq_of_params, bulk_insert)` —
with the flag off, one request per parameter tuple (repeat execute per
tuple); with the flag on, the statement must be a single INSERT and all
parameter tuples are merged into one multi-row payload sent as a single
request.  Returns the list of network requests issued. -/
def executemany (sql : String) (paramSeq : List (List ParamValue))
    (bulkInsert : Bool) : Except SdkError (List Request) :=
  if bulkInsert then
    if isSingleInsert sql then
      (bindAll sql paramSeq).map (fun bound => [{ tupleStatements := bound }])
    else
      .error (.programmingError "bulk insert is only supported for INSERT statements")
  else
    (bindAll sql paramSeq).map
      (fun bound => bound.map (fun b => { tupleStatements := [b] }))

/-! ## Session parameters -/

/-- Default session parameters of a fresh cursor. -/
def defaultSessionParameters : List (String × String) := []

/-- Modelled from the spec: "a fixed set of reserved names (e.g. account
identifier, output format, database, engine) must be rejected if the caller
attempts to set them via the generic `SET` mechanism". -/
def reservedParameterNames : List String :=
  ["account_id", "output_format", "database", "engine"]

/-- Strip leading and trailing whitespace from a character list. -/
def trimChars (cs : List Char) : List Char :=
  ((cs.dropWhile Char.isWhitespace).reverse.dropWhile Char.isWhitespace).reverse

/-- Parse a `SET key = value` statement into its key/value pair; any other
statement yields `none`. -/
def parseSet (stmt : String) : Option (String × String) :=
  if firstKeyword stmt = "SET" then
    let rest := (stmt.data.dropWhile Char.isWhitespace).drop 3
    match rest.splitOn '=' with
    | [k, v] => some (String.mk (trimChars k), String.mk (trimChars v))
    | _ => none
  else none

/-- Replace or add a key in an association list of session parameters. -/
def upsertParam (ps : List (String × String)) (k v : String) :
    List (String × String) :=
  if ps.any (fun p => p.1 = k) then
    ps.map (fun p => if p.1 = k then (k, v) else p)
  else ps ++ [(k, v)]

/-- Update the element at one index of a list, leaving the rest unchanged. -/
def updateAt {α : Type} : List α → Nat → (α → α) → List α
  | [], _, _ => []
  | a :: l, 0, f => f a :: l
  | a :: l, n + 1, f => a :: updateAt l n f

/-- A Connection's view of its open cursors: each cursor owns its own copy of
the session parameters, indexed by cursor position in the connection's
registry. -/
structure ConnectionState where
  cursorParams : List (List (String × String))
deriving Repr

/-- Modelled from the spec: executing a `SET` statement on one cursor mutates
only that cursor's session parameters; reserved names are rejected with
`ProgrammingError`. -/
def executeSetOn (conn : ConnectionState) (i : Nat) (stmt : String) :
    Except SdkError ConnectionState :=
  match parseSet stmt with
  | some kv =>
    if kv.1 ∈ reservedParameterNames then
      .error (.programmingError "setting an internal parameter is not allowed")
    else
      .ok { cursorParams :=
              updateAt conn.cursorParams i (fun ps => upsertParam ps kv.1 kv.2) }
  | none => .ok conn

/-- Modelled from the spec: `flush_parameters()` "clears
SessionContext.session_parameters back to defaults for this Cursor without
affecting sibling cursors on the same Connection". -/
def flushParameters (conn : ConnectionState) (i : Nat) : ConnectionState :=
  { cursorParams := updateAt conn.cursorParams i (fun _ => defaultSessionParameters) }

/-! ## Server-side asynchronous queries -/

/-- Status vocabulary of the server-side async query tracker. -/
inductive QueryStatus where
  | running
  | endedSuccessfully
  | endedUnsuccessfully
  | notReady
  | startedExecution
  | parseError
  | canceledExecution
  | executionError
deriving DecidableEq, Repr

/-- A status is final when the query has stopped and its status can no longer
change. -/
def isFinal : QueryStatus → Bool
  | .endedSuccessfully => true
  | .endedUnsuccessfully => true
  | .parseError => true
  | .canceledExecution => true
  | .executionError => true
  | .running => false
  | .notReady => false
  | .startedExecution => false

/-- Server-side state of one submitted async query: its current status and
whether a best-effort cancel request has been received for it. -/
structure AsyncQueryState where
  status : QueryStatus
  cancelRequested : Bool
deriving DecidableEq, Repr

/-- Modelled from the spec: `cancel(token)` sends a best-effort cancel — it
marks the query, it does not stop it immediately. -/
def cancelQuery (q : AsyncQueryState) : AsyncQueryState :=
  { q with cancelRequested := true }

/-- Modelled from the spec: one observable step of the backend on a tracked
query.  A final status never changes; a query without a cancel request may
move to any status; once a cancel request is received, the only final status
the query can reach is `CANCELED_EXECUTION`. -/
inductive QueryStep : AsyncQueryState → AsyncQueryState → Prop where
  | final (q : AsyncQueryState) :
      isFinal q.status = true → QueryStep q q
  | free (q : AsyncQueryState) (next : QueryStatus) :
      isFinal q.status = false → q.cancelRequested = false →
      QueryStep q { status := next, cancelRequested := false }
  | afterCancel (q : AsyncQueryState) (next : QueryStatus) :
      isFinal q.status = false → q.cancelRequested = true →
      (next = .canceledExecution ∨ isFinal next = false) →
      QueryStep q { status := next, cancelRequested := true }

/-- A trace of the backend's states for one query: each tick is one observable
step. -/
def IsTrace (t : Nat → AsyncQueryState) : Prop :=
  ∀ n, QueryStep (t n) (t (n + 1))

/-- Modelled from the docs: `is_async_query_running` "will return True if the
query is still running, and False otherwise" — the non-final statuses are the
running ones. -/
def isAsyncQueryRunning (status : QueryStatus) : Bool :=
  !(isFinal status)

/-- Modelled from the docs: `is_async_query_successful` "will return True if
the query has finished successfully, None if query is still running and False
if the query has failed". -/
def isAsyncQuerySuccessful (status : QueryStatus) : Option Bool :=
  if isAsyncQueryRunning status then none
  else some (status = .endedSuccessfully)

/-- Connection-level wrapper: poll the server for the status of a token and
report whether the query is still running. -/
def connIsAsyncQueryRunning (server : String → QueryStatus) (token : String) :
    Bool :=
  isAsyncQueryRunning (server token)

/-- Connection-level wrapper: poll the server for the status of a token and
report the three-valued success indicator. -/
def connIsAsyncQuerySuccessful (server : String → QueryStatus) (token : String) :
    Option Bool :=
  isAsyncQuerySuccessful (server token)

/-! # Theorems -/

/-! ## C5: qmark string serialization round-trip -/

/-- The escaped body of a string followed by the closing quote parses back to
the original characters. -/
theorem parseQuotedBody_escape (l : List Char) :
    parseQuotedBody (l.flatMap escapeChar ++ ['\'']) = some l := by
  induction l with
  | nil => rfl
  | cons c l ih =>
    by_cases hc : c = '\''
    · subst hc
      simp only [List.flatMap_cons, escapeChar, if_pos rfl, List.cons_append,
        List.append_assoc]
      simp [parseQuotedBody, ih]
    · simp only [List.flatMap_cons, escapeChar, if_neg hc, List.cons_append,
        List.singleton_append]
      simp [parseQuotedBody, hc, ih]

/-- C5: for every string parameter value `s`, including every `s` containing
embedded single quotes, qmark client-side binding serializes `s` to a
single-quoted SQL literal with internal quotes escaped such that parsing the
produced literal yields exactly `s` again. -/
theorem qmark_string_serialization_roundtrip (s : String) :
    parseStringLiteral (serializeString s) = some s := by
  cases s with
  | mk data =>
    show (parseQuotedBody (data.flatMap escapeChar ++ ['\''])).map String.mk =
      some (String.mk data)
    rw [parseQuotedBody_escape]
    rfl

/-! ## C9: three-valued async success indicator -/

/-- C9: `is_async_query_successful` is three-valued — `none` exactly while the
query is still running, `some true` exactly when it finished successfully,
`some false` exactly when it failed; `is_async_query_running` is true exactly
while the query is still running. -/
theorem async_query_successful_three_valued (server : String → QueryStatus)
    (token : String) :
    (connIsAsyncQuerySuccessful server token = none ↔
      connIsAsyncQueryRunning server token = true) ∧
    (connIsAsyncQuerySuccessful server token = some true ↔
      server token = .endedSuccessfully) ∧
    (connIsAsyncQuerySuccessful server token = some false ↔
      connIsAsyncQueryRunning server token = false ∧
        server token ≠ .endedSuccessfully) := by
  cases h : server token <;>
    simp [connIsAsyncQuerySuccessful, connIsAsyncQueryRunning, h,
      isAsyncQuerySuccessful, isAsyncQueryRunning, isFinal]

/-! ## C10: description populates only name and type_code -/

/-- Every result set a batch run produces was processed from some backend
envelope. -/
theorem mem_runBatch_resultSets (backend : Backend) (stmts : List String)
    (idx : Nat) (ps : ProcessedSet)
    (h : ps ∈ (runBatch backend idx stmts).resultSets) :
    ∃ s env, ps = processResponse s env := by
  induction stmts generalizing idx with
  | nil => simp [runBatch] at h
  | cons s rest ih =>
    rw [runBatch] at h
    cases hb : backend s with
    | ok env =>
      rw [hb] at h
      simp only [List.mem_cons] at h
      rcases h with h | h
      · exact ⟨s, env, h⟩
      · exact ih (idx + 1) h
    | error msg =>
      rw [hb] at h
      simp at h

/-- C10: every `Column` in the description of any result set produced by an
execute call has only `name` and `type_code` populated — `display_size`,
`internal_size`, `precision`, `scale` and `null_ok` are always `none`. -/
theorem description_populates_only_name_and_type (backend : Backend)
    (sql : String) (ps : ProcessedSet)
    (hps : ps ∈ (cursorAfterExecute backend sql).resultSets)
    (col : Column) (hcol : col ∈ ps.description) :
    col.display_size = none ∧ col.internal_size = none ∧
    col.precision = none ∧ col.scale = none ∧ col.null_ok = none := by
  obtain ⟨s, env, rfl⟩ := mem_runBatch_resultSets backend (splitStatements sql) 0 ps hps
  simp only [processResponse, List.mem_map] at hcol
  obtain ⟨nt, -, rfl⟩ := hcol
  exact ⟨rfl, rfl, rfl, rfl, rfl⟩

/-- A fixed single-column, two-row backend used by concrete witnesses. -/
def witnessBackend : Backend :=
  fun _ => .ok { columns := [("id", .int)], rows := [[.int 7], [.int 8]] }

/-- Concrete instance of C10: executing `SELECT 1` against the witness
backend yields a description entry with all optional fields `none`. -/
theorem description_populates_only_name_and_type_witness :
    (mkColumn ("id", .int)).display_size = none ∧
    (mkColumn ("id", .int)).internal_size = none ∧
    (mkColumn ("id", .int)).precision = none ∧
    (mkColumn ("id", .int)).scale = none ∧
    (mkColumn ("id", .int)).null_ok = none :=
  description_populates_only_name_and_type witnessBackend "SELECT 1"
    (processResponse "SELECT 1"
      { columns := [("id", .int)], rows := [[.int 7], [.int 8]] })
    (by rw [show (cursorAfterExecute witnessBackend "SELECT 1").resultSets =
          [processResponse "SELECT 1"
            { columns := [("id", .int)], rows := [[.int 7], [.int 8]] }] from rfl]
        exact List.mem_singleton.mpr rfl)
    (mkColumn ("id", .int))
    (by rw [show (processResponse "SELECT 1"
          { columns := [("id", FType.int)], rows := [[.int 7], [.int 8]] }).description =
          [mkColumn ("id", .int)] from rfl]
        exact List.mem_singleton.mpr rfl)

/-! ## C4: rowcount by statement kind -/

/-- C4: after executing a single statement, the cursor's rowcount is the
number of result rows for a SELECT, −1 for an INSERT, and 1 for a DDL
statement. -/
theorem rowcount_by_statement_kind (backend : Backend) (sql stmt : String)
    (env : ResultEnvelope) (hsplit : splitStatements sql = [stmt])
    (hresp : backend stmt = .ok env) :
    (classify stmt = .select →
      cursorRowcount (cursorAfterExecute backend sql) = env.rows.length) ∧
    (classify stmt = .insert →
      cursorRowcount (cursorAfterExecute backend sql) = -1) ∧
    (classify stmt = .ddl →
      cursorRowcount (cursorAfterExecute backend sql) = 1) := by
  refine ⟨fun h => ?_, fun h => ?_, fun h => ?_⟩ <;>
    simp [cursorAfterExecute, hsplit, runBatch, hresp, cursorRowcount,
      currentSet, processResponse, rowcountFor, h]

/-- Concrete instance of C4: a two-row SELECT against the witness backend
reports rowcount 2. -/
theorem rowcount_by_statement_kind_witness :
    cursorRowcount (cursorAfterExecute witnessBackend "SELECT * FROM t") = 2 :=
  (rowcount_by_statement_kind witnessBackend "SELECT * FROM t" "SELECT * FROM t"
    { columns := [("id", .int)], rows := [[.int 7], [.int 8]] }
    rfl rfl).1 rfl

/-! ## C2: bulk insert issues exactly one request -/

/-- Successful binding produces one bound statement per parameter tuple. -/
theorem bindAll_length (sql : String) (paramSeq : List (List ParamValue))
    (bound : List String) (h : bindAll sql paramSeq = .ok bound) :
    bound.length = paramSeq.length := by
  induction paramSeq generalizing bound with
  | nil =>
    simp only [bindAll] at h
    cases h
    rfl
  | cons params rest ih =>
    rw [bindAll] at h
    cases hs : substituteParams sql params with
    | ok b =>
      rw [hs] at h
      cases hr : bindAll sql rest with
      | ok bs =>
        rw [hr] at h
        cases h
        simp [ih bs hr]
      | error e => rw [hr] at h; cases h
    | error e => rw [hs] at h; cases h

/-- C2: `executemany` with `bulk_insert=True` on a single INSERT statement
merges all parameter tuples into one payload and issues exactly one network
request regardless of the number of tuples; with `bulk_insert=False` it
issues one request per tuple; with `bulk_insert=True` on any other statement
type it fails with `ProgrammingError`. -/
theorem executemany_bulk_insert_requests (sql : String)
    (paramSeq : List (List ParamValue)) :
    (isSingleInsert sql = true →
      ∀ reqs, executemany sql paramSeq true = .ok reqs →
        reqs.length = 1 ∧
        ∃ bound, bindAll sql paramSeq = .ok bound ∧
          reqs = [{ tupleStatements := bound }] ∧
          bound.length = paramSeq.length) ∧
    (isSingleInsert sql = false →
      executemany sql paramSeq true =
        .error (.programmingError "bulk insert is only supported for INSERT statements")) ∧
    (∀ reqs, executemany sql paramSeq false = .ok reqs →
      reqs.length = paramSeq.length) := by
  refine ⟨fun hins reqs hok => ?_, fun hnotins => ?_, fun reqs hok => ?_⟩
  · rw [executemany, if_pos rfl, if_pos hins] at hok
    cases hb : bindAll sql paramSeq with
    | ok bound =>
      rw [hb] at hok
      cases hok
      exact ⟨rfl, bound, rfl, rfl, bindAll_length sql paramSeq bound hb⟩
    | error e => rw [hb] at hok; cases hok
  · rw [executemany, if_pos rfl, if_neg (by simp [hnotins])]
  · rw [executemany, if_neg (by simp)] at hok
    cases hb : bindAll sql paramSeq with
    | ok bound =>
      rw [hb] at hok
      cases hok
      simp [bindAll_length sql paramSeq bound hb]
    | error e => rw [hb] at hok; cases hok

/-- Concrete instance of C2: a bulk insert of two tuples issues one request
that carries both bound statements. -/
theorem executemany_bulk_insert_requests_witness :
    ([({ tupleStatements := ["INSERT INTO t VALUES (1)", "INSERT INTO t VALUES (2)"] } :
        Request)].length = 1) ∧
    ∃ bound, bindAll "INSERT INTO t VALUES (?)" [[.int 1], [.int 2]] = .ok bound ∧
      [({ tupleStatements := ["INSERT INTO t VALUES (1)", "INSERT INTO t VALUES (2)"] } :
        Request)] = [{ tupleStatements := bound }] ∧
      bound.length = [[ParamValue.int 1], [ParamValue.int 2]].length :=
  (executemany_bulk_insert_requests "INSERT INTO t VALUES (?)"
    [[.int 1], [.int 2]]).1 rfl
    [{ tupleStatements := ["INSERT INTO t VALUES (1)", "INSERT INTO t VALUES (2)"] }]
    rfl

/-! ## C6: session parameters are per-cursor -/

/-- `updateAt` leaves every other index unchanged. -/
theorem getElem?_updateAt_ne {α : Type} (l : List α) (i j : Nat) (f : α → α)
    (h : i ≠ j) : (updateAt l i f)[j]? = l[j]? := by
  induction l generalizing i j with
  | nil => rfl
  | cons a l ih =>
    cases i with
    | zero =>
      cases j with
      | zero => exact absurd rfl h
      | succ j => simp [updateAt]
    | succ i =>
      cases j with
      | zero => simp [updateAt]
      | succ j =>
        simp only [updateAt, List.getElem?_cons_succ]
        exact ih i j (fun hij => h (by rw [hij]))

/-- `updateAt` applies the function at the updated index. -/
theorem getElem?_updateAt_self {α : Type} (l : List α) (i : Nat) (f : α → α) :
    (updateAt l i f)[i]? = (l[i]?).map f := by
  induction l generalizing i with
  | nil => rfl
  | cons a l ih =>
    cases i with
    | zero => simp [updateAt]
    | succ i =>
      simp only [updateAt, List.getElem?_cons_succ]
      exact ih i

/-- C6: executing a `SET` statement through one cursor or flushing its
parameters leaves every sibling cursor's session parameters on the same
connection unchanged, and `flush_parameters` resets the calling cursor's
session parameters to the defaults. -/
theorem session_parameters_cursor_isolation (conn : ConnectionState)
    (i j : Nat) (stmt : String) (hij : i ≠ j) :
    (∀ conn2, executeSetOn conn i stmt = .ok conn2 →
      conn2.cursorParams[j]? = conn.cursorParams[j]?) ∧
    (flushParameters conn i).cursorParams[j]? = conn.cursorParams[j]? ∧
    (i < conn.cursorParams.length →
      (flushParameters conn i).cursorParams[i]? = some defaultSessionParameters) := by
  refine ⟨fun conn2 hok => ?_, ?_, fun hi => ?_⟩
  · rw [executeSetOn] at hok
    cases hkv : parseSet stmt with
    | some kv =>
      rw [hkv] at hok
      dsimp only at hok
      by_cases hres : kv.1 ∈ reservedParameterNames
      · rw [if_pos hres] at hok
        cases hok
      · rw [if_neg hres] at hok
        cases hok
        exact getElem?_updateAt_ne _ i j _ hij
    | none =>
      rw [hkv] at hok
      cases hok
      rfl
  · exact getElem?_updateAt_ne _ i j _ hij
  · rw [flushParameters]
    show (updateAt conn.cursorParams i _)[i]? = _
    rw [getElem?_updateAt_self, List.getElem?_eq_getElem hi]
    rfl

/-- Concrete instance of C6: a `SET` on cursor 0 of a two-cursor connection
leaves cursor 1's parameters untouched, and flushing cursor 0 resets it to
the defaults. -/
theorem session_parameters_cursor_isolation_witness :
    (ConnectionState.mk
        [upsertParam [("a", "1")] "time_zone" "'UTC'", [("b", "2")]]).cursorParams[1]? =
      (ConnectionState.mk [[("a", "1")], [("b", "2")]]).cursorParams[1]? ∧
    (flushParameters (ConnectionState.mk [[("a", "1")], [("b", "2")]]) 0).cursorParams[1]? =
      (ConnectionState.mk [[("a", "1")], [("b", "2")]]).cursorParams[1]? ∧
    (flushParameters (ConnectionState.mk [[("a", "1")], [("b", "2")]]) 0).cursorParams[0]? =
      some defaultSessionParameters := by
  have h := session_parameters_cursor_isolation
    (ConnectionState.mk [[("a", "1")], [("b", "2")]]) 0 1
    "SET time_zone = 'UTC'" (by decide)
  exact ⟨h.1 (ConnectionState.mk
      [upsertParam [("a", "1")] "time_zone" "'UTC'", [("b", "2")]]) rfl,
    h.2.1, h.2.2 (by decide)⟩

/-! ## C1: mid-batch failure semantics -/

/-- Dispatching a batch whose prefix succeeds and whose next statement fails
produces exactly the prefix result sets, sends nothing after the failing
statement, and records which statement failed. -/
theorem runBatch_prefix_fail (backend : Backend) (f : String → ResultEnvelope)
    (msg failing : String) (post : List String)
    (hfail : backend failing = .error msg) :
    ∀ (pre : List String) (idx : Nat), (∀ s ∈ pre, backend s = .ok (f s)) →
    runBatch backend idx (pre ++ failing :: post) =
      { resultSets := pre.map (fun s => processResponse s (f s))
        sent := pre ++ [failing]
        err := some (.operationalError (idx + pre.length) msg) } := by
  intro pre
  induction pre with
  | nil =>
    intro idx _
    rw [List.nil_append, runBatch, hfail]
    rfl
  | cons s pre ih =>
    intro idx hpre
    have hs := hpre s (List.mem_cons_self s pre)
    rw [List.cons_append, runBatch]
    simp only [hs]
    rw [ih (idx + 1) (fun t ht => hpre t (List.mem_cons_of_mem s ht))]
    simp only [List.map_cons, List.cons_append, List.length_cons]
    have hidx : idx + 1 + pre.length = idx + (pre.length + 1) := by omega
    rw [hidx]

/-- C1: when statement `k` of a batch fails, the failure is raised for that
statement, no statement after `k` is sent to the backend, `fetchall` on every
result set produced before `k` still returns that statement's rows, and
`nextset` at the failure point reports the failure instead of the "no more
result sets" sentinel. -/
theorem batch_failure_semantics (backend : Backend) (f : String → ResultEnvelope)
    (msg failing : String) (pre post : List String)
    (hpre : ∀ s ∈ pre, backend s = .ok (f s))
    (hfail : backend failing = .error msg) :
    (runBatch backend 0 (pre ++ failing :: post)).sent = pre ++ [failing] ∧
    (runBatch backend 0 (pre ++ failing :: post)).err =
      some (.operationalError pre.length msg) ∧
    (∀ k (hk : k < pre.length),
      fetchall (batchCursorAt (runBatch backend 0 (pre ++ failing :: post)) k) =
        (f pre[k]).rows) ∧
    (∀ k, pre.length ≤ k + 1 →
      nextset (batchCursorAt (runBatch backend 0 (pre ++ failing :: post)) k) =
        .error (.operationalError pre.length msg)) := by
  have hrun := runBatch_prefix_fail backend f msg failing post hfail pre 0 hpre
  rw [Nat.zero_add] at hrun
  rw [hrun]
  refine ⟨rfl, rfl, fun k hk => ?_, fun k hk => ?_⟩
  · rw [batchCursorAt, fetchall, currentSet]
    dsimp only
    rw [List.getElem?_map, List.getElem?_eq_getElem hk]
    rfl
  · rw [batchCursorAt, nextset]
    dsimp only
    rw [if_neg (by simp only [List.length_map]; omega)]

/-- A backend for the C1 witness: every statement succeeds with one row,
except the statement `bad`, which fails. -/
def failingBackend : Backend :=
  fun s =>
    if s = "bad" then .error "boom"
    else .ok { columns := [("id", .int)], rows := [[.int 7]] }

/-- Concrete instance of C1: in the batch `SELECT 1; bad; SELECT 2`, the
first statement's rows stay fetchable and `nextset` reports the failure of
statement 1. -/
theorem batch_failure_semantics_witness :
    fetchall (batchCursorAt (runBatch failingBackend 0
        (["SELECT 1"] ++ "bad" :: ["SELECT 2"])) 0) = [[.int 7]] ∧
    nextset (batchCursorAt (runBatch failingBackend 0
        (["SELECT 1"] ++ "bad" :: ["SELECT 2"])) 0) =
      .error (.operationalError 1 "boom") := by
  have h := batch_failure_semantics failingBackend
    (fun _ => { columns := [("id", .int)], rows := [[.int 7]] })
    "boom" "bad" ["SELECT 1"] ["SELECT 2"]
    (by intro s hs
        rw [List.mem_singleton] at hs
        subst hs
        rfl)
    rfl
  exact ⟨h.2.2.1 0 (by decide), h.2.2.2 0 (by decide)⟩

/-! ## C3: client-side timeout semantics -/

/-- Dispatching a batch under a budget that the prefix respects but the next
statement exhausts keeps the prefix results, sends a cancellation, raises the
timeout, and dispatches nothing further. -/
theorem runBatchTimed_prefix_timeout (backend : TimedBackend)
    (f : String → ResultEnvelope) (d : String → Nat)
    (failing : String) (post : List String) :
    ∀ (pre : List String) (idx budget : Nat),
    (∀ s ∈ pre, backend s = (d s, .ok (f s))) →
    (pre.map d).sum ≤ budget →
    budget < (pre.map d).sum + (backend failing).1 →
    runBatchTimed backend idx budget (pre ++ failing :: post) =
      { resultSets := pre.map (fun s => processResponse s (f s))
        sent := pre ++ [failing]
        cancelSent := true
        err := some .queryTimeoutError } := by
  intro pre
  induction pre with
  | nil =>
    intro idx budget _ _ htime
    rw [List.nil_append, runBatchTimed]
    rw [if_pos (by simpa using htime)]
    simp
  | cons s pre ih =>
    intro idx budget hpre hsum htime
    have hs := hpre s (List.mem_cons_self s pre)
    have hsum2 : d s + (pre.map d).sum ≤ budget := by simpa using hsum
    rw [List.cons_append, runBatchTimed, hs]
    dsimp only
    rw [if_neg (by omega)]
    rw [ih (idx + 1) (budget - d s)
      (fun t ht => hpre t (List.mem_cons_of_mem s ht))
      (by omega)
      (by simp only [List.map_cons, List.sum_cons] at htime; omega)]
    simp

/-- C3: when the client-side timer fires while statement `k` of a batch is in
flight, the call raises `QueryTimeoutError` after sending a best-effort
cancellation; the result sets of the statements completed before the timeout
remain attached and fetchable, and the remaining statements of the batch are
never dispatched. -/
theorem timeout_keeps_completed_results (backend : TimedBackend)
    (f : String → ResultEnvelope) (d : String → Nat) (failing : String)
    (pre post : List String) (budget : Nat)
    (hpre : ∀ s ∈ pre, backend s = (d s, .ok (f s)))
    (hsum : (pre.map d).sum ≤ budget)
    (htime : budget < (pre.map d).sum + (backend failing).1) :
    (runBatchTimed backend 0 budget (pre ++ failing :: post)).err =
      some .queryTimeoutError ∧
    (runBatchTimed backend 0 budget (pre ++ failing :: post)).cancelSent = true ∧
    (runBatchTimed backend 0 budget (pre ++ failing :: post)).sent =
      pre ++ [failing] ∧
    (∀ k (hk : k < pre.length),
      fetchall (timedCursorAt
          (runBatchTimed backend 0 budget (pre ++ failing :: post)) k) =
        (f pre[k]).rows) := by
  have hrun := runBatchTimed_prefix_timeout backend f d failing post pre 0 budget
    hpre hsum htime
  rw [hrun]
  refine ⟨rfl, rfl, rfl, fun k hk => ?_⟩
  rw [timedCursorAt, fetchall, currentSet]
  dsimp only
  rw [List.getElem?_map, List.getElem?_eq_getElem hk]
  rfl

/-- A timed backend for the C3 witness: every statement takes one second and
yields one row, except `SLOW`, which takes ten seconds. -/
def slowBackend : TimedBackend :=
  fun s =>
    if s = "SLOW" then (10, .ok { columns := [("id", .int)], rows := [[.int 9]] })
    else (1, .ok { columns := [("id", .int)], rows := [[.int 7]] })

/-- Concrete instance of C3: with a five-second budget, `SELECT 1; SLOW;
SELECT 2` times out during `SLOW`, yet statement 1's rows stay fetchable and
the timeout is recorded after a cancellation was sent. -/
theorem timeout_keeps_completed_results_witness :
    (runBatchTimed slowBackend 0 5 (["SELECT 1"] ++ "SLOW" :: ["SELECT 2"])).err =
      some .queryTimeoutError ∧
    (runBatchTimed slowBackend 0 5
      (["SELECT 1"] ++ "SLOW" :: ["SELECT 2"])).cancelSent = true ∧
    fetchall (timedCursorAt (runBatchTimed slowBackend 0 5
      (["SELECT 1"] ++ "SLOW" :: ["SELECT 2"])) 0) = [[.int 7]] := by
  have h := timeout_keeps_completed_results slowBackend
    (fun _ => { columns := [("id", .int)], rows := [[.int 7]] })
    (fun _ => 1) "SLOW" ["SELECT 1"] ["SELECT 2"] 5
    (by intro s hs
        rw [List.mem_singleton] at hs
        subst hs
        rfl)
    (by decide)
    (by decide)
  exact ⟨h.1, h.2.1, h.2.2.2 0 (by decide)⟩

/-! ## C7: multi-statement text with parameters is rejected -/

/-- Characters that trigger no mode change in the normal scanner mode pass
straight into the current statement. -/
theorem splitAux_normal_plain (cs : List Char) :
    ∀ (acc rest : List Char),
    (∀ c ∈ cs, c ≠ ';' ∧ c ≠ '\'' ∧ c ≠ '"' ∧ c ≠ '-' ∧ c ≠ '/') →
    splitAux .normal acc (cs ++ rest) =
      splitAux .normal (cs.reverse ++ acc) rest := by
  induction cs with
  | nil =>
    intro acc rest _
    simp
  | cons c cs ih =>
    intro acc rest h
    obtain ⟨h1, h2, h3, h4, h5⟩ := h c (List.mem_cons_self c cs)
    rw [List.cons_append, splitAux]
    rw [if_neg h1, if_neg h2, if_neg h3, if_neg h4, if_neg h5]
    rw [ih (c :: acc) rest (fun t ht => h t (List.mem_cons_of_mem c ht))]
    simp

/-- Inside a single-quoted string, every character other than the closing
quote — a `;` included — passes straight into the current statement. -/
theorem splitAux_quote_plain (cs : List Char) :
    ∀ (acc rest : List Char), (∀ c ∈ cs, c ≠ '\'') →
    splitAux .singleQuote acc (cs ++ rest) =
      splitAux .singleQuote (cs.reverse ++ acc) rest := by
  induction cs with
  | nil =>
    intro acc rest _
    simp
  | cons c cs ih =>
    intro acc rest h
    rw [List.cons_append, splitAux]
    rw [if_neg (h c (List.mem_cons_self c cs))]
    rw [ih (c :: acc) rest (fun t ht => h t (List.mem_cons_of_mem c ht))]
    simp

/-- Inside a line comment, every character other than the terminating newline
— a `;` included — passes straight into the current statement. -/
theorem splitAux_lineComment_plain (cs : List Char) :
    ∀ (acc rest : List Char), (∀ c ∈ cs, c ≠ '\n') →
    splitAux .lineComment acc (cs ++ rest) =
      splitAux .lineComment (cs.reverse ++ acc) rest := by
  induction cs with
  | nil =>
    intro acc rest _
    simp
  | cons c cs ih =>
    intro acc rest h
    rw [List.cons_append, splitAux]
    rw [if_neg (h c (List.mem_cons_self c cs))]
    rw [ih (c :: acc) rest (fun t ht => h t (List.mem_cons_of_mem c ht))]
    simp

/-- An opening quote in normal mode switches to string mode. -/
theorem splitAux_normal_quote (acc rest : List Char) :
    splitAux .normal acc ('\'' :: rest) =
      splitAux .singleQuote ('\'' :: acc) rest := by
  rw [splitAux]
  rw [if_neg (by decide), if_pos rfl]

/-- A quote in string mode closes the string and returns to normal mode. -/
theorem splitAux_quote_close (acc rest : List Char) :
    splitAux .singleQuote acc ('\'' :: rest) =
      splitAux .normal ('\'' :: acc) rest := by
  rw [splitAux]
  rw [if_pos rfl]

/-- A dash in normal mode enters the one-character lookahead state. -/
theorem splitAux_normal_dash (acc rest : List Char) :
    splitAux .normal acc ('-' :: rest) = splitAux .sawDash ('-' :: acc) rest := by
  rw [splitAux]
  rw [if_neg (by decide), if_neg (by decide), if_neg (by decide), if_pos rfl]

/-- A second dash completes the `--` opener and enters line-comment mode. -/
theorem splitAux_sawDash_dash (acc rest : List Char) :
    splitAux .sawDash acc ('-' :: rest) =
      splitAux .lineComment ('-' :: acc) rest := by
  rw [splitAux]
  rw [if_pos rfl]

/-- A one-element statement list whose statement is not blank survives the
trailing-blank drop. -/
theorem dropTrailingBlank_singleton (x : String)
    (hx : isBlankStatement x = false) : dropTrailingBlank [x] = [x] := by
  rw [dropTrailingBlank]
  simp [List.dropWhile, hx]

/-- A statement starting with the characters of `SELECT ` is not blank. -/
theorem select_head_not_blank (pre rest : List Char)
    (hpre : pre.all Char.isWhitespace = false) :
    isBlankStatement (String.mk (pre ++ rest)) = false := by
  rw [isBlankStatement]
  show ((pre ++ rest).all Char.isWhitespace) = false
  rw [List.all_append, hpre]
  rfl

/-- A `;` inside a single-quoted string does not split the text: the quoted
text is one statement. -/
theorem splitStatements_quoted_semicolon (s : String)
    (hs : ∀ c ∈ s.data, c ≠ '\'') :
    splitStatements ("SELECT '" ++ s ++ "'") = ["SELECT '" ++ s ++ "'"] := by
  cases s with
  | mk l =>
    show dropTrailingBlank
      (splitAux .normal [] (("SELECT ".data ++ ['\'']) ++ l ++ ['\''])) = _
    rw [show (("SELECT ".data ++ ['\'']) ++ l ++ ['\'']) =
      "SELECT ".data ++ ('\'' :: (l ++ ['\''])) from by simp]
    rw [splitAux_normal_plain "SELECT ".data [] _ (by decide)]
    rw [splitAux_normal_quote]
    rw [splitAux_quote_plain l _ ['\''] hs]
    rw [splitAux_quote_close]
    rw [splitAux]
    rw [dropTrailingBlank_singleton _ (by
      rw [show ('\'' :: (l.reverse ++ '\'' :: ("SELECT ".data.reverse ++ []))).reverse =
        ("SELECT ".data ++ ('\'' :: (l ++ ['\'']))) from by simp]
      exact select_head_not_blank _ _ (by decide))]
    rw [show ('\'' :: (l.reverse ++ '\'' :: ("SELECT ".data.reverse ++ []))).reverse =
      ("SELECT ".data ++ ('\'' :: (l ++ ['\'']))) from by simp]
    rfl

/-- A line comment that reaches the end of the text closes the current (and
only remaining) statement. -/
theorem splitAux_lineComment_end (cs : List Char) :
    ∀ acc : List Char, (∀ c ∈ cs, c ≠ '\n') →
    splitAux .lineComment acc cs = [String.mk (acc.reverse ++ cs)] := by
  induction cs with
  | nil =>
    intro acc _
    simp [splitAux]
  | cons c cs ih =>
    intro acc h
    rw [splitAux]
    rw [if_neg (h c (List.mem_cons_self c cs))]
    rw [ih (c :: acc) (fun t ht => h t (List.mem_cons_of_mem c ht))]
    simp

/-- A `;` inside a `--` line comment does not split the text: the commented
text is one statement. -/
theorem splitStatements_line_comment (s : String)
    (hs : ∀ c ∈ s.data, c ≠ '\n') :
    splitStatements ("SELECT 1 --" ++ s) = ["SELECT 1 --" ++ s] := by
  cases s with
  | mk l =>
    show dropTrailingBlank
      (splitAux .normal [] (("SELECT 1 ".data ++ ['-', '-']) ++ l)) = _
    rw [show (("SELECT 1 ".data ++ ['-', '-']) ++ l) =
      "SELECT 1 ".data ++ ('-' :: '-' :: l) from by simp]
    rw [splitAux_normal_plain "SELECT 1 ".data [] _ (by decide)]
    rw [splitAux_normal_dash, splitAux_sawDash_dash]
    rw [splitAux_lineComment_end l _ hs]
    rw [show (('-' :: '-' :: ("SELECT 1 ".data.reverse ++ [])).reverse ++ l) =
      ("SELECT 1 ".data ++ ('-' :: '-' :: l)) from by simp]
    rw [dropTrailingBlank_singleton _ (select_head_not_blank _ _ (by decide))]
    rfl

/-- C7: when the string/comment-aware splitter finds two or more statements
and a non-empty parameter tuple is supplied, the execute path fails with
`ProgrammingError`; a `;` inside a quoted string or a comment does not make
the text multi-statement. -/
theorem multistatement_with_params_rejected (sql : String)
    (params : List ParamValue) (h2 : 2 ≤ (splitStatements sql).length)
    (hp : params ≠ []) :
    prepareStatements sql params =
      .error (.programmingError "multi-statement queries cannot be parameterized") ∧
    (∀ s : String, (∀ c ∈ s.data, c ≠ '\'') →
      splitStatements ("SELECT '" ++ s ++ "'") = ["SELECT '" ++ s ++ "'"]) ∧
    (∀ s : String, (∀ c ∈ s.data, c ≠ '\n') →
      splitStatements ("SELECT 1 --" ++ s) = ["SELECT 1 --" ++ s]) := by
  refine ⟨?_, splitStatements_quoted_semicolon, splitStatements_line_comment⟩
  rw [prepareStatements, if_pos ⟨h2, hp⟩]

/-- Concrete instance of C7: two statements plus one bound parameter are
rejected, and a `;` inside a quoted string leaves the text one statement. -/
theorem multistatement_with_params_rejected_witness :
    prepareStatements "SELECT ?; SELECT 2" [ParamValue.int 1] =
      .error (.programmingError "multi-statement queries cannot be parameterized") ∧
    splitStatements ("SELECT '" ++ "a;b" ++ "'") = ["SELECT '" ++ "a;b" ++ "'"] := by
  have h := multistatement_with_params_rejected "SELECT ?; SELECT 2"
    [ParamValue.int 1] (by decide) (by decide)
  exact ⟨h.1, h.2.1 "a;b" (by decide)⟩

/-! ## C8: cancel leads to CANCELED_EXECUTION and never ENDED_SUCCESSFULLY -/

/-- One backend step preserves the post-cancel invariant: the cancel request
stays set, and the only final status reachable is `CANCELED_EXECUTION`. -/
theorem queryStep_preserves_cancel_invariant (a b : AsyncQueryState)
    (hstep : QueryStep a b)
    (ha : a.cancelRequested = true ∧
      (isFinal a.status = true → a.status = .canceledExecution)) :
    b.cancelRequested = true ∧
      (isFinal b.status = true → b.status = .canceledExecution) := by
  cases hstep with
  | final hq => exact ha
  | free next hnf hcr => exact absurd ha.1 (by simp [hcr])
  | afterCancel next hnf hcr hnext =>
    refine ⟨rfl, fun hf => ?_⟩
    rcases hnext with h | h
    · exact h
    · exact absurd hf (by simp [h])

/-- A query whose status is final never changes again. -/
theorem queryStep_final_fixed (a b : AsyncQueryState) (hstep : QueryStep a b)
    (ha : isFinal a.status = true) : b = a := by
  cases hstep with
  | final hq => rfl
  | free next hnf hcr => exact absurd ha (by simp [hnf])
  | afterCancel next hnf hcr hnext => exact absurd ha (by simp [hnf])

/-- Along any trace starting right after a cancel request on a still-running
query, the cancel request stays set and the only reachable final status is
`CANCELED_EXECUTION`. -/
theorem trace_cancel_invariant (t : Nat → AsyncQueryState) (ht : IsTrace t)
    (q0 : AsyncQueryState) (hrun : isFinal q0.status = false)
    (h0 : t 0 = cancelQuery q0) :
    ∀ n, (t n).cancelRequested = true ∧
      (isFinal (t n).status = true → (t n).status = .canceledExecution) := by
  intro n
  induction n with
  | zero =>
    rw [h0]
    exact ⟨rfl, fun hf => absurd hf (by simp [cancelQuery, hrun])⟩
  | succ n ih => exact queryStep_preserves_cancel_invariant _ _ (ht n) ih

/-- C8: after `cancel(token)` is received while the query is still running,
any terminating trace of poll results eventually reports
`CANCELED_EXECUTION`, stays there, and never reports `ENDED_SUCCESSFULLY` at
any point. -/
theorem cancel_eventually_canceled (t : Nat → AsyncQueryState)
    (q0 : AsyncQueryState) (ht : IsTrace t)
    (hrun : isFinal q0.status = false) (h0 : t 0 = cancelQuery q0)
    (hterm : ∃ n, isFinal (t n).status = true) :
    (∀ n, (t n).status ≠ .endedSuccessfully) ∧
    (∃ n, (t n).status = .canceledExecution ∧
      ∀ m, n ≤ m → (t m).status = .canceledExecution) := by
  have hinv := trace_cancel_invariant t ht q0 hrun h0
  constructor
  · intro n hsucc
    have hfin : isFinal (t n).status = true := by rw [hsucc]; rfl
    have hcanc := (hinv n).2 hfin
    rw [hsucc] at hcanc
    simp at hcanc
  · obtain ⟨n, hn⟩ := hterm
    have hfix : ∀ k, t (n + k) = t n := by
      intro k
      induction k with
      | zero => rfl
      | succ k ih =>
        have hstep := queryStep_final_fixed _ _ (ht (n + k)) (by rw [ih]; exact hn)
        rw [Nat.add_succ, hstep, ih]
    refine ⟨n, (hinv n).2 hn, fun m hm => ?_⟩
    obtain ⟨k, rfl⟩ := Nat.exists_eq_add_of_le hm
    rw [hfix k]
    exact (hinv n).2 hn

/-- A concrete post-cancel trace: one more RUNNING poll, then
CANCELED_EXECUTION forever. -/
def witnessTrace : Nat → AsyncQueryState :=
  fun n =>
    if n = 0 then { status := .running, cancelRequested := true }
    else { status := .canceledExecution, cancelRequested := true }

/-- Concrete instance of C8: on the witness trace, poll never reports
`ENDED_SUCCESSFULLY` and tick 1 reports `CANCELED_EXECUTION`. -/
theorem cancel_eventually_canceled_witness :
    (witnessTrace 0).status ≠ .endedSuccessfully ∧
    (witnessTrace 1).status = .canceledExecution := by
  have h := cancel_eventually_canceled witnessTrace
    { status := .running, cancelRequested := false }
    (by intro n
        cases n with
        | zero => exact QueryStep.afterCancel _ .canceledExecution rfl rfl (Or.inl rfl)
        | succ n => exact QueryStep.final _ rfl)
    rfl rfl ⟨1, rfl⟩
  exact ⟨h.1 0, rfl⟩

/-! ## Sanity checks on concrete inputs -/

example : splitStatements "SELECT 1; SELECT 2" = ["SELECT 1", " SELECT 2"] := rfl
example : splitStatements "SELECT 1;" = ["SELECT 1"] := rfl
example : splitStatements "SELECT 'a;b'" = ["SELECT 'a;b'"] := rfl
example : splitStatements "SELECT 1 -- c;c\n; SELECT 2" =
    ["SELECT 1 -- c;c\n", " SELECT 2"] := rfl
example : splitStatements "SELECT /* ; */ 1" = ["SELECT /* ; */ 1"] := rfl
example : serializeString "it's" = "'it''s'" := rfl
example : serializeParam (.int (-3)) = "-3" := rfl
example : parseStringLiteral "'it''s'" = some "it's" := rfl
example : parseStringLiteral "'a' " = none := rfl
example : substituteParams "INSERT INTO t VALUES (?, ?)" [.int 1, .text "a"] =
    .ok "INSERT INTO t VALUES (1, 'a')" := rfl
example : substituteParams "SELECT '?'" [.int 1] =
    .error (.programmingError "too many parameters provided") := rfl
example : classify "  select * from t" = .select := rfl
example : classify "CREATE TABLE t (id INT)" = .ddl := rfl
example : parseSet " set time_zone = 'UTC'" = some ("time_zone", "'UTC'") := rfl
example : parseSet "SELECT 1" = none := rfl

end FireboltSDK
